import Mathlib

/-!
Shallow embedding of the navigation and rendering core of lookaround-map:
the movement plugin (src/js/viewer/MovementPlugin.js and its older variant
src/js/viewer/movementPlugin.js) and the panorama adapter bundled in the
same source file (mesh construction, UV remapping, LOD texture streaming).

Modelling conventions: JS numbers are exact rationals; JS exceptions
(TypeError on a null/undefined member access) are an explicit error
outcome; asynchronous functions are split at their await points into a
synchronous start step and a completion step so that interleavings can be
stated; the external geodesy helpers (src/js/util/geo.js) and the screen
projection (ScreenFrustum, sphericalCoordsToViewerCoords) are function
parameters, because every claim below holds or fails uniformly in them.
-/

namespace Lookaround

/-- MAX_DISTANCE constant of MovementPlugin.js (line 6). -/
def MAX_DISTANCE : ℚ := 100

/-- CAMERA_HEIGHT constant of MovementPlugin.js (line 8), 2.4. -/
def CAMERA_HEIGHT : ℚ := 24 / 10

/-- The panorama records returned by the API (fields used by the plugin). -/
structure Pano where
  lat : ℚ
  lon : ℚ
  rawElevation : ℚ
deriving DecidableEq, Repr

/-- A local East-North-Up offset, the output of geodeticToEnu. -/
structure Enu where
  east : ℚ
  north : ℚ
  up : ℚ
deriving DecidableEq, Repr

/-- A camera-relative spherical position, the output of enuToPhotoSphere. -/
structure SpherePos where
  yaw : ℚ
  pitch : ℚ
  distance : ℚ
deriving DecidableEq, Repr

/-- One entry of `this.nearbyPanos` as pushed by updatePanoMarkers. -/
structure NeighborCandidate where
  pano : Pano
  position : SpherePos
  scale : ℚ
deriving DecidableEq, Repr

/-- The body of updatePanoMarkers' loop for a single response pano
(MovementPlugin.js lines 51-73): skip the pano sharing the reference's
exact coordinates, convert through geodeticToEnu / enuToPhotoSphere,
skip when the computed distance exceeds MAX_DISTANCE, otherwise store a
candidate with the distance-derived scale `0.05 + (0.5 - 0.5*d/100)`.
The two geodesy functions live in src/js/util/geo.js and are passed as
parameters. -/
def candidateOf (geodeticToEnu : ℚ → ℚ → ℚ → ℚ → ℚ → ℚ → Enu)
    (enuToPhotoSphere : Enu → ℚ → SpherePos)
    (refPano pano : Pano) : Option NeighborCandidate :=
  if refPano.lat = pano.lat ∧ refPano.lon = pano.lon then
    none
  else
    let deltaElevation := (pano.rawElevation - refPano.rawElevation) / 80
    let enu := geodeticToEnu pano.lon pano.lat deltaElevation refPano.lon refPano.lat CAMERA_HEIGHT
    let position := enuToPhotoSphere enu 0
    if position.distance > MAX_DISTANCE then
      none
    else
      some { pano := pano, position := position,
             scale := 1/20 + (1/2 - (1/2 * position.distance) / 100) }

/-- updatePanoMarkers (MovementPlugin.js lines 47-74): the candidate set
is rebuilt wholesale from the response panos, in order. -/
def updatePanoMarkers (geodeticToEnu : ℚ → ℚ → ℚ → ℚ → ℚ → ℚ → Enu)
    (enuToPhotoSphere : Enu → ℚ → SpherePos)
    (refPano : Pano) (responsePanos : List Pano) : List NeighborCandidate :=
  responsePanos.filterMap (candidateOf geodeticToEnu enuToPhotoSphere refPano)

/-- A spherical position with the field names used by mouse/click data. -/
structure Position where
  latitude : ℚ
  longitude : ℚ
deriving DecidableEq, Repr

/-- The marker owned by the plugin (the fields updateMarker touches). -/
structure Marker where
  visible : Bool
  data : Option Pano
  latitude : ℚ
  longitude : ℚ
  width : ℚ
  height : ℚ
deriving DecidableEq, Repr

/-- _getClosestPano (MovementPlugin.js lines 149-166): a fold over the
candidate set keeping the on-screen candidate of least angular distance,
starting from `closest = null, closestDist = 9999999`. `offScreen` stands
for _markerPositionIsOffScreen (which queries the external renderer) and
`distanceBetween` (src/js/util/geo.js) for the angular-distance helper,
called with scale 1 as in the source. -/
def getClosestPano (offScreen : SpherePos → Bool)
    (distanceBetween : ℚ → ℚ → ℚ → ℚ → ℚ → ℚ)
    (position : Position) (nearbyPanos : List NeighborCandidate) :
    Option NeighborCandidate :=
  (nearbyPanos.foldl
    (fun acc pano =>
      if offScreen pano.position then acc
      else
        let distance := distanceBetween position.latitude position.longitude
          pano.position.pitch pano.position.yaw 1
        if distance < acc.2 then (some pano, distance) else acc)
    (none, 9999999)).1

/-- The mutable plugin state touched by the mouse/click handlers.
`inFlight` counts navigations that have been started (`_navigateTo`
awaited) and not yet completed; it instruments the asynchronous gap of
the source for the temporal claims. -/
structure MoveState where
  marker : Marker
  mouseHasMoved : Bool
  movementEnabled : Bool
  nearbyPanos : Option (List NeighborCandidate)
  lastMousePosition : Option Position
  inFlight : ℕ
deriving DecidableEq, Repr

/-- _hideMarker (MovementPlugin.js lines 177-183): updateMarker with
`visible: false, data: null`; the other marker fields are untouched. -/
def hideMarker (m : Marker) : Marker :=
  { m with visible := false, data := none }

/-- The updateMarker call of _mouseMovedTo (lines 106-116). -/
def updateMarkerTo (c : NeighborCandidate) (m : Marker) : Marker :=
  { m with latitude := c.position.pitch, longitude := c.position.yaw,
           width := 64 * c.scale, height := 64 * c.scale,
           visible := true, data := some c.pano }

/-- What a single _mouseMovedTo call did to the marker. -/
inductive MoveResult where
  | noop
  | hidden
  | updated (c : NeighborCandidate)
deriving DecidableEq, Repr

/-- _mouseMovedTo (MovementPlugin.js lines 99-118): return unchanged when
`!this.nearbyPanos || !this.movementEnabled`; otherwise hide the marker
when _getClosestPano finds nothing, else bind the marker to the closest
candidate. -/
def mouseMovedTo (offScreen : SpherePos → Bool)
    (distanceBetween : ℚ → ℚ → ℚ → ℚ → ℚ → ℚ)
    (position : Position) (s : MoveState) : MoveState × MoveResult :=
  match s.nearbyPanos with
  | none => (s, .noop)
  | some panos =>
    if s.movementEnabled = false then (s, .noop)
    else
      match getClosestPano offScreen distanceBetween position panos with
      | none => ({ s with marker := hideMarker s.marker }, .hidden)
      | some closest => ({ s with marker := updateMarkerTo closest s.marker }, .updated closest)

/-- The click data handed to _onClick by the viewer. -/
structure ClickData where
  rightclick : Bool
  latitude : ℚ
  longitude : ℚ
deriving DecidableEq, Repr

/-- The synchronous outcome of one _onClick call up to its first await:
either the handler returned early (ignored), or it threw a TypeError, or it
started a navigation (`viaMarker` records which branch). -/
inductive ClickStart where
  | ignored
  | typeError
  | navStarted (p : Pano) (viaMarker : Bool)
deriving DecidableEq, Repr

/-- _onClick up to `await this._navigateTo(...)` (MovementPlugin.js lines
120-142). Right-clicks and clicks while `movementEnabled` is false return
at once. With no visible/bound marker and a mouse that has moved, return.
In the touch branch, iterate the candidate set (`for..of` over an
undefined `nearbyPanos` throws) and dereference `closest.pano` (throws
when _getClosestPano returned null). In the marker branch, hide the
marker, clear `movementEnabled`, and start navigating to the bound pano. -/
def onClickStart (offScreen : SpherePos → Bool)
    (distanceBetween : ℚ → ℚ → ℚ → ℚ → ℚ → ℚ)
    (data : ClickData) (s : MoveState) : MoveState × ClickStart :=
  if data.rightclick = true ∨ s.movementEnabled = false then
    (s, .ignored)
  else if s.marker.visible = false ∨ s.marker.data = none then
    if s.mouseHasMoved = true then
      (s, .ignored)
    else
      match s.nearbyPanos with
      | none => (s, .typeError)
      | some panos =>
        match getClosestPano offScreen distanceBetween
            ⟨data.latitude, data.longitude⟩ panos with
        | none => (s, .typeError)
        | some closest =>
          ({ s with inFlight := s.inFlight + 1 }, .navStarted closest.pano false)
  else
    match s.marker.data with
    | none => (s, .ignored)  -- unreachable: the guard above ensures marker.data is present
    | some pano =>
      ({ s with marker := hideMarker s.marker,
                movementEnabled := false,
                inFlight := s.inFlight + 1 }, .navStarted pano true)

/-- The continuation of _onClick after `await this._navigateTo(...)`
returns. The touch branch has no code after the await. The marker branch
restores `movementEnabled` and re-resolves the marker against the saved
mouse position (`this._mouseMovedTo(this.lastMousePosition)`); the saved
position is present whenever the marker was visible, since only
_onMouseMove makes it visible after recording the position. -/
def onClickFinish (offScreen : SpherePos → Bool)
    (distanceBetween : ℚ → ℚ → ℚ → ℚ → ℚ → ℚ)
    (viaMarker : Bool) (s : MoveState) : MoveState :=
  let s1 := { s with inFlight := s.inFlight - 1 }
  if viaMarker then
    let s2 := { s1 with movementEnabled := true }
    match s2.lastMousePosition with
    | some position => (mouseMovedTo offScreen distanceBetween position s2).1
    | none => s2
  else s1

/-! The LookaroundAdapter half of the source file: per-face texture slots,
mesh (re)construction, and the dynamic LOD refresh. -/

/-- A loaded texture together with its `userData` (`{zoom, url}` set by
__loadOneTexture; `refreshing` is absent until __refreshFaces first sets
it, which an absent-equals-false Bool models). -/
structure TextureData where
  zoom : ℕ
  url : String
  refreshing : Bool
deriving DecidableEq, Repr

/-- One material slot of the merged mesh; `map` is absent on the bare
materials the mesh is created with and present once setTexture ran. -/
structure Material where
  map : Option TextureData
deriving DecidableEq, Repr

/-- The body of __refreshFaces for one face (MovementPlugin.js lines
505-524) up to issuing the fetch: when the slot has a map whose level is
coarser than the target and which is not already refreshing, mark it
refreshing, capture the slot's current url, and issue the fetch (returned
as `some (zoom, oldUrl)`); otherwise do nothing and issue nothing. -/
def refreshFaceRequest (zoom : ℕ) (m : Material) : Material × Option (ℕ × String) :=
  match m.map with
  | none => (m, none)
  | some t =>
    if t.zoom > zoom ∧ t.refreshing = false then
      ({ map := some { t with refreshing := true } }, some (zoom, t.url))
    else
      (m, none)

/-- The `.then` continuation of a face upgrade fetch (MovementPlugin.js
lines 513-523): if the slot's current url still equals the captured
`oldUrl`, install a new material whose map is the fetched texture with
`refreshing` cleared; otherwise fall through, leaving the slot untouched.
Reading `.userData.url` of an absent map would throw, hence the error
outcome. -/
def refreshFaceComplete (oldUrl : String) (texture : TextureData) (m : Material) :
    Except Unit Material :=
  match m.map with
  | none => .error ()
  | some t =>
    if t.url = oldUrl then
      .ok { map := some { zoom := texture.zoom, url := texture.url, refreshing := false } }
    else
      .ok m

/-- The per-face slot seen across a whole panorama lifetime (fixed url):
its current level, the refreshing mark, and the level of the pending
upgrade fetch, if one is in flight. -/
structure FaceSlot where
  zoom : ℕ
  refreshing : Bool
  pending : Option ℕ
deriving DecidableEq, Repr

/-- Events a face slot sees while the panorama stays current: a refresh
request at some target level (one visible-face iteration of
__refreshFaces) or the completion of the pending fetch, whose staleness
check passes because the url is fixed, and which installs a texture at
the level captured at request time. -/
inductive FaceEvent where
  | request (target : ℕ)
  | complete
deriving DecidableEq, Repr

/-- One step of the face slot: requests are guarded by
`zoom > target && !refreshing`; a completion installs the pending level
and clears the mark. -/
def stepFace (s : FaceSlot) : FaceEvent → FaceSlot
  | .request target =>
    if s.zoom > target ∧ s.refreshing = false then
      { s with refreshing := true, pending := some target }
    else s
  | .complete =>
    match s.pending with
    | some target => { zoom := target, refreshing := false, pending := none }
    | none => s

/-- A face slot run over a sequence of events. -/
def runFace (s : FaceSlot) (es : List FaceEvent) : FaceSlot :=
  es.foldl stepFace s

/-- Well-formedness of a face slot: a pending fetch was issued under the
request guard, so its level betters the current one and the mark is set. -/
def FaceInv (s : FaceSlot) : Prop :=
  ∀ t, s.pending = some t → t < s.zoom ∧ s.refreshing = true

/-- Projection metadata of a panorama: the ordered list of four face
extents (`latitude_size`). -/
structure Projection where
  latitude_size : Fin 4 → ℚ

/-- The panorama metadata the adapter reads. -/
structure Panorama where
  projection : Projection

/-- The adapter state relevant to mesh reuse: the face extent the current
mesh was built for and the identity of the installed mesh object. Mesh
objects are identified by a counter; `nextMeshId` is the next identity
createMesh would allocate, so identities below it are the ones already
handed out. -/
structure AdapterState where
  previousThetaLength : ℚ
  mesh : ℕ
  nextMeshId : ℕ
deriving DecidableEq, Repr

/-- Installed mesh identities precede the allocation counter. -/
def MeshInv (s : AdapterState) : Prop :=
  s.mesh < s.nextMeshId

/-- __recreateMeshIfNecessary (MovementPlugin.js lines 285-301): compare
the new panorama's `latitude_size[0]` with the one the current mesh was
built for; when they differ, remove the old mesh and install a freshly
created one; either way record the new value. -/
def recreateMeshIfNecessary (p : Panorama) (s : AdapterState) : AdapterState :=
  let thetaLength := p.projection.latitude_size 0
  if s.previousThetaLength ≠ thetaLength then
    { previousThetaLength := thetaLength,
      mesh := s.nextMeshId,
      nextMeshId := s.nextMeshId + 1 }
  else
    { s with previousThetaLength := thetaLength }

/-- The per-face overlap-trim factor of __setSideUV (lines 412-414):
`1 - 1/22` for the even (120°) faces, `1 - 1/12` for the odd (60°) ones. -/
def overlap (faceIdx : ℕ) : ℚ :=
  if faceIdx % 2 = 0 then 1 - 1/22 else 1 - 1/12

/-- __setSideUV (MovementPlugin.js lines 407-419): every UV pair of the
face geometry has its U scaled by the face's overlap factor and its V
kept. -/
def setSideUV (uv : List (ℚ × ℚ)) (faceIdx : ℕ) : List (ℚ × ℚ) :=
  uv.map fun q => (q.1 * overlap faceIdx, q.2)

/-! The pointer-move rate limiter, in both of its coexisting variants. -/

/-- The state _onMouseMove touches before any geometry: the timestamp of
the last processed event and the has-moved flag. -/
structure MouseState where
  lastProcessedMoveEvent : ℤ
  mouseHasMoved : Bool
deriving DecidableEq, Repr

/-- `updateLimit = 1000/60` of both _onMouseMove variants. -/
def updateLimit : ℚ := 1000 / 60

/-- The rate gate of _onMouseMove in MovementPlugin.js (lines 76-96):
set the has-moved flag; process the event (and record its timestamp) when
`msSinceLastUpdate > updateLimit`, else drop it. The Bool reports whether
the event was processed. -/
def onMouseMoveGateA (s : MouseState) (now : ℤ) : MouseState × Bool :=
  let s1 := { s with mouseHasMoved := true }
  let msSinceLastUpdate := now - s1.lastProcessedMoveEvent
  if (msSinceLastUpdate : ℚ) > updateLimit then
    ({ s1 with lastProcessedMoveEvent := now }, true)
  else
    (s1, false)

/-- The rate gate of _onMouseMove in movementPlugin.js (lines 77-87):
set the has-moved flag; return at once when
`msSinceLastUpdate < updateLimit`, else record the timestamp and process. -/
def onMouseMoveGateB (s : MouseState) (now : ℤ) : MouseState × Bool :=
  let s1 := { s with mouseHasMoved := true }
  let msSinceLastUpdate := now - s1.lastProcessedMoveEvent
  if (msSinceLastUpdate : ℚ) < updateLimit then
    (s1, false)
  else
    ({ s1 with lastProcessedMoveEvent := now }, true)

/-- A whole event sequence through variant A, returning the final state
and the per-event processed/dropped decisions. -/
def runGateA : MouseState → List ℤ → MouseState × List Bool
  | s, [] => (s, [])
  | s, t :: ts =>
    let (s1, p) := onMouseMoveGateA s t
    let (sf, ps) := runGateA s1 ts
    (sf, p :: ps)

/-- A whole event sequence through variant B, returning the final state
and the per-event processed/dropped decisions. -/
def runGateB : MouseState → List ℤ → MouseState × List Bool
  | s, [] => (s, [])
  | s, t :: ts =>
    let (s1, p) := onMouseMoveGateB s t
    let (sf, ps) := runGateB s1 ts
    (sf, p :: ps)

/-! Concrete instances shared by witnesses and counterexamples. -/

/-- A reference panorama. -/
def pano0 : Pano := ⟨48, 11, 1000⟩

/-- A neighbor panorama a little north of `pano0`. -/
def pano1 : Pano := ⟨480001/10000, 11, 1000⟩

/-- A nearby camera-relative position. -/
def sphere0 : SpherePos := ⟨1, 0, 10⟩

/-- A stored candidate for `pano1`. -/
def cand0 : NeighborCandidate := ⟨pano1, sphere0, 1/2⟩

/-- The marker as the constructor creates it: hidden, unbound. -/
def marker0 : Marker := ⟨false, none, 0, 0, 1, 1⟩

/-- A left click/tap at a fixed position. -/
def tap0 : ClickData := ⟨false, 0, 1⟩

/-- A screen projection that reports every candidate on screen. -/
def offNone : SpherePos → Bool := fun _ => false

/-- A constant angular-distance function. -/
def dbOne : ℚ → ℚ → ℚ → ℚ → ℚ → ℚ := fun _ _ _ _ _ => 1

/-- A constant geodeticToEnu stand-in. -/
def geoEnu0 : ℚ → ℚ → ℚ → ℚ → ℚ → ℚ → Enu := fun _ _ _ _ _ _ => ⟨0, 0, 0⟩

/-- A constant enuToPhotoSphere stand-in. -/
def geoSphere0 : Enu → ℚ → SpherePos := fun _ _ => sphere0

/-! Theorems. -/

/-- candidateOf with its intermediate bindings inlined. -/
theorem candidateOf_eq (gEnu : ℚ → ℚ → ℚ → ℚ → ℚ → ℚ → Enu)
    (gSphere : Enu → ℚ → SpherePos) (refPano pano : Pano) :
    candidateOf gEnu gSphere refPano pano =
      if refPano.lat = pano.lat ∧ refPano.lon = pano.lon then none
      else if (gSphere (gEnu pano.lon pano.lat ((pano.rawElevation - refPano.rawElevation) / 80)
          refPano.lon refPano.lat CAMERA_HEIGHT) 0).distance > MAX_DISTANCE then none
      else some { pano := pano,
                  position := gSphere (gEnu pano.lon pano.lat
                    ((pano.rawElevation - refPano.rawElevation) / 80)
                    refPano.lon refPano.lat CAMERA_HEIGHT) 0,
                  scale := 1/20 + (1/2 - (1/2 * (gSphere (gEnu pano.lon pano.lat
                    ((pano.rawElevation - refPano.rawElevation) / 80)
                    refPano.lon refPano.lat CAMERA_HEIGHT) 0).distance) / 100) } := rfl

/-- A candidate produced by candidateOf carries the neighbor it was made
from, a distance within range, and coordinates distinct from the
reference's. -/
theorem candidateOf_some_spec (gEnu : ℚ → ℚ → ℚ → ℚ → ℚ → ℚ → Enu)
    (gSphere : Enu → ℚ → SpherePos) (refPano pano : Pano) (c : NeighborCandidate)
    (h : candidateOf gEnu gSphere refPano pano = some c) :
    c.pano = pano ∧ c.position.distance ≤ MAX_DISTANCE ∧
      ¬(refPano.lat = pano.lat ∧ refPano.lon = pano.lon) := by
  rw [candidateOf_eq] at h
  split_ifs at h with h1 h2
  rw [Option.some.injEq] at h
  subst h
  exact ⟨rfl, not_lt.mp h2, h1⟩

/-- C2: every candidate stored by updatePanoMarkers has computed distance
at most MAX_DISTANCE and does not share the reference panorama's exact
latitude and longitude; a neighbor failing either condition produces no
candidate at all. -/
theorem updatePanoMarkers_filter_invariant (gEnu : ℚ → ℚ → ℚ → ℚ → ℚ → ℚ → Enu)
    (gSphere : Enu → ℚ → SpherePos) (refPano : Pano) (responsePanos : List Pano) :
    (∀ c ∈ updatePanoMarkers gEnu gSphere refPano responsePanos,
       c.position.distance ≤ MAX_DISTANCE ∧
       ¬(refPano.lat = c.pano.lat ∧ refPano.lon = c.pano.lon)) ∧
    (∀ pano : Pano,
       ((refPano.lat = pano.lat ∧ refPano.lon = pano.lon) ∨
        (gSphere (gEnu pano.lon pano.lat ((pano.rawElevation - refPano.rawElevation) / 80)
            refPano.lon refPano.lat CAMERA_HEIGHT) 0).distance > MAX_DISTANCE) →
       candidateOf gEnu gSphere refPano pano = none) := by
  constructor
  · intro c hc
    rw [updatePanoMarkers, List.mem_filterMap] at hc
    obtain ⟨pano, _, hp⟩ := hc
    obtain ⟨hpano, hdist, hcoord⟩ := candidateOf_some_spec _ _ _ _ _ hp
    exact ⟨hdist, by rw [hpano]; exact hcoord⟩
  · intro pano h
    rw [candidateOf_eq]
    rcases h with h | h
    · rw [if_pos h]
    · by_cases hc : refPano.lat = pano.lat ∧ refPano.lon = pano.lon
      · rw [if_pos hc]
      · rw [if_neg hc, if_pos h]

/-- C2 witness: a neighbor with the reference's exact coordinates is
excluded. -/
theorem updatePanoMarkers_filter_invariant_witness :
    candidateOf geoEnu0 geoSphere0 pano0 pano0 = none :=
  (updatePanoMarkers_filter_invariant geoEnu0 geoSphere0 pano0 []).2 pano0
    (Or.inl ⟨rfl, rfl⟩)

/-- C3: an upgrade fetch completion applies the fetched texture if and
only if the slot's current source identity still equals the url captured
at request time; when they differ, the slot is returned exactly as it
was. -/
theorem refreshFaceComplete_staleness (oldUrl : String) (texture : TextureData)
    (m : Material) (t : TextureData) (h : m.map = some t) :
    (t.url = oldUrl →
       refreshFaceComplete oldUrl texture m =
         .ok { map := some { zoom := texture.zoom, url := texture.url,
                             refreshing := false } }) ∧
    (t.url ≠ oldUrl → refreshFaceComplete oldUrl texture m = .ok m) := by
  rcases m with ⟨mm⟩
  simp only [Material.map] at h
  subst h
  constructor
  · intro hu
    simp [refreshFaceComplete, hu]
  · intro hu
    simp [refreshFaceComplete, hu]

/-- C3 witness: a completion whose captured url no longer matches leaves
the slot untouched. -/
theorem refreshFaceComplete_staleness_witness :
    refreshFaceComplete "b" ⟨0, "b", false⟩ ⟨some ⟨5, "a", true⟩⟩ =
      .ok ⟨some ⟨5, "a", true⟩⟩ :=
  (refreshFaceComplete_staleness "b" ⟨0, "b", false⟩ ⟨some ⟨5, "a", true⟩⟩
    ⟨5, "a", true⟩ rfl).2 (by decide)

/-- C8: while a face's slot is marked refreshing, a further refresh
request issues no fetch and changes nothing; a fetch is issued exactly
when the slot's level is coarser than the target and the mark is clear,
and the mark is placed exactly when the fetch is issued. -/
theorem refreshFaceRequest_single_flight (zoom : ℕ) (m : Material) (t : TextureData)
    (h : m.map = some t) :
    (t.refreshing = true → refreshFaceRequest zoom m = (m, none)) ∧
    ((refreshFaceRequest zoom m).2.isSome = true ↔ zoom < t.zoom ∧ t.refreshing = false) ∧
    ((refreshFaceRequest zoom m).2.isSome = true →
       refreshFaceRequest zoom m =
         ({ map := some { t with refreshing := true } }, some (zoom, t.url))) := by
  rcases m with ⟨mm⟩
  simp only [Material.map] at h
  subst h
  by_cases hg : t.zoom > zoom ∧ t.refreshing = false
  · have happ : refreshFaceRequest zoom ⟨some t⟩ =
        (⟨some { t with refreshing := true }⟩, some (zoom, t.url)) := by
      simp [refreshFaceRequest, hg]
    refine ⟨fun hr => ?_, ?_, fun _ => happ⟩
    · rw [hr] at hg
      simp at hg
    · rw [happ]
      simp only [Option.isSome_some, true_iff]
      exact ⟨hg.1, hg.2⟩
  · have hskip : refreshFaceRequest zoom ⟨some t⟩ = (⟨some t⟩, none) := by
      simp only [refreshFaceRequest]
      rw [if_neg hg]
    refine ⟨fun _ => hskip, ?_, fun hs => ?_⟩
    · rw [hskip]
      simp only [Option.isSome_none, Bool.false_eq_true, false_iff]
      intro hz
      exact hg ⟨hz.1, hz.2⟩
    · rw [hskip] at hs
      simp at hs

/-- C8 witness: a request against a slot already refreshing is a no-op. -/
theorem refreshFaceRequest_single_flight_witness :
    refreshFaceRequest 0 ⟨some ⟨5, "a", true⟩⟩ = (⟨some ⟨5, "a", true⟩⟩, none) :=
  (refreshFaceRequest_single_flight 0 ⟨some ⟨5, "a", true⟩⟩ ⟨5, "a", true⟩ rfl).1 rfl

/-- C6: navigating to a panorama whose first face extent equals the one
the current mesh was built for reuses the mesh (same identity, nothing
else changed); a differing extent installs a wholly new mesh; either way
the recorded extent becomes the new panorama's. -/
theorem recreateMesh_identity (p : Panorama) (s : AdapterState) (h : MeshInv s) :
    (p.projection.latitude_size 0 = s.previousThetaLength →
       recreateMeshIfNecessary p s =
         { s with previousThetaLength := p.projection.latitude_size 0 }) ∧
    (p.projection.latitude_size 0 ≠ s.previousThetaLength →
       (recreateMeshIfNecessary p s).mesh ≠ s.mesh) ∧
    MeshInv (recreateMeshIfNecessary p s) ∧
    (recreateMeshIfNecessary p s).previousThetaLength = p.projection.latitude_size 0 := by
  unfold recreateMeshIfNecessary
  by_cases hne : s.previousThetaLength ≠ p.projection.latitude_size 0
  · rw [if_pos hne]
    refine ⟨fun he => absurd he.symm hne, fun _ => ?_, ?_, rfl⟩
    · exact fun he => absurd he (Nat.ne_of_gt h)
    · exact Nat.lt_succ_self _
  · rw [if_neg hne]
    rw [not_ne_iff] at hne
    refine ⟨fun _ => rfl, fun hd => absurd hne.symm hd, h, rfl⟩

/-- Projection metadata with the regular car-footage extent. -/
def proj0 : Projection := ⟨fun _ => 1614429558/1000000000⟩

/-- A panorama with the regular projection. -/
def panoMeta0 : Panorama := ⟨proj0⟩

/-- An adapter state whose mesh was built for the regular extent. -/
def adapter0 : AdapterState := ⟨1614429558/1000000000, 0, 1⟩

/-- C6 witness: after a navigation the recorded extent is the new
panorama's first face extent. -/
theorem recreateMesh_identity_witness :
    (recreateMeshIfNecessary panoMeta0 adapter0).previousThetaLength =
      panoMeta0.projection.latitude_size 0 :=
  (recreateMesh_identity panoMeta0 adapter0 (by simp [MeshInv, adapter0])).2.2.2

/-- C7: setSideUV scales every U texture coordinate by the face's
overlap-trim factor and leaves V unchanged; the factor is 1 - 1/22 on the
wide faces 0 and 2 and 1 - 1/12 on the narrow faces 1 and 3, so the
maximum original U of 1 maps exactly to 1 - 1/22 resp. 1 - 1/12. -/
theorem setSideUV_overlap_trim (uv : List (ℚ × ℚ)) (faceIdx i : ℕ) :
    (setSideUV uv faceIdx)[i]? =
      (uv[i]?).map (fun q => (q.1 * overlap faceIdx, q.2)) ∧
    overlap 0 = 1 - 1/22 ∧ overlap 1 = 1 - 1/12 ∧
    overlap 2 = 1 - 1/22 ∧ overlap 3 = 1 - 1/12 ∧
    (1 : ℚ) * overlap 0 = 1 - 1/22 ∧ (1 : ℚ) * overlap 1 = 1 - 1/12 := by
  refine ⟨?_, by norm_num [overlap], by norm_num [overlap], by norm_num [overlap],
    by norm_num [overlap], by norm_num [overlap], by norm_num [overlap]⟩
  simp [setSideUV, List.getElem?_map]

/-- The two rate-limiter variants decide a single event identically: an
integer elapsed time can never equal the threshold 1000/60, so
strictly-greater and not-strictly-less coincide. -/
theorem onMouseMoveGate_pointwise (s : MouseState) (now : ℤ) :
    onMouseMoveGateA s now = onMouseMoveGateB s now := by
  unfold onMouseMoveGateA onMouseMoveGateB
  have hne : ((now - s.lastProcessedMoveEvent : ℤ) : ℚ) ≠ updateLimit := by
    intro heq
    have h60 : ((now - s.lastProcessedMoveEvent : ℤ) : ℚ) * 60 = 1000 := by
      rw [heq]; norm_num [updateLimit]
    have : (now - s.lastProcessedMoveEvent) * 60 = 1000 := by exact_mod_cast h60
    omega
  rcases lt_trichotomy ((now - s.lastProcessedMoveEvent : ℤ) : ℚ) updateLimit with h | h | h
  · rw [if_neg (by exact fun hgt => absurd h (not_lt.mpr (le_of_lt hgt))), if_pos h]
  · exact absurd h hne
  · rw [if_pos h, if_neg (not_lt.mpr (le_of_lt h))]

/-- One face-slot step preserves well-formedness and never increases the
stored quality level. -/
theorem stepFace_preserves (s : FaceSlot) (e : FaceEvent) (h : FaceInv s) :
    FaceInv (stepFace s e) ∧ (stepFace s e).zoom ≤ s.zoom := by
  cases e with
  | request target =>
    by_cases hg : s.zoom > target ∧ s.refreshing = false
    · simp only [stepFace, if_pos hg]
      refine ⟨?_, le_refl _⟩
      intro t ht
      simp only [Option.some.injEq] at ht
      subst ht
      exact ⟨hg.1, rfl⟩
    · simp only [stepFace, if_neg hg]
      exact ⟨h, le_refl _⟩
  | complete =>
    cases hp : s.pending with
    | none =>
      simp only [stepFace, hp]
      exact ⟨h, le_refl _⟩
    | some target =>
      have ht := h target hp
      simp only [stepFace, hp]
      refine ⟨?_, le_of_lt ht.1⟩
      intro t htp
      simp at htp

/-- Running a face slot over any event sequence preserves well-formedness
and never increases the stored quality level. -/
theorem runFace_preserves (s : FaceSlot) (es : List FaceEvent) (h : FaceInv s) :
    FaceInv (runFace s es) ∧ (runFace s es).zoom ≤ s.zoom := by
  induction es generalizing s with
  | nil => exact ⟨h, le_refl _⟩
  | cons e es ih =>
    have hstep := stepFace_preserves s e h
    have hrest := ih (stepFace s e) hstep.1
    simp only [runFace, List.foldl_cons] at hrest ⊢
    exact ⟨hrest.1, le_trans hrest.2 hstep.2⟩

/-- C9: over the lifetime of one panorama, a face slot's stored quality
level is non-increasing along every event sequence; a completion applies
a strictly better level than the slot held; and a face already at or
better than the target level is never re-fetched (the request is a
no-op). -/
theorem faceSlot_level_monotone (s : FaceSlot) (es : List FaceEvent) (h : FaceInv s) :
    FaceInv (runFace s es) ∧ (runFace s es).zoom ≤ s.zoom ∧
    (∀ es2, (runFace s (es ++ es2)).zoom ≤ (runFace s es).zoom) ∧
    (∀ target, s.pending = some target → (stepFace s FaceEvent.complete).zoom < s.zoom) ∧
    (∀ target, s.zoom ≤ target → stepFace s (FaceEvent.request target) = s) := by
  obtain ⟨hinv, hle⟩ := runFace_preserves s es h
  refine ⟨hinv, hle, ?_, ?_, ?_⟩
  · intro es2
    rw [runFace, List.foldl_append]
    exact (runFace_preserves (runFace s es) es2 hinv).2
  · intro target ht
    have hd := h target ht
    simp only [stepFace, ht]
    exact hd.1
  · intro target ht
    have hng : ¬(s.zoom > target ∧ s.refreshing = false) :=
      fun hg => absurd hg.1 (not_lt.mpr ht)
    exact if_neg hng

/-- C9 witness: from the initial coarse level 5, a request at level 0
followed by its completion leaves the slot at a level at most 5. -/
theorem faceSlot_level_monotone_witness :
    (runFace ⟨5, false, none⟩ [FaceEvent.request 0, FaceEvent.complete]).zoom ≤ 5 :=
  (faceSlot_level_monotone ⟨5, false, none⟩ [FaceEvent.request 0, FaceEvent.complete]
    (fun _ ht => nomatch ht)).2.1

/-- C10: the two coexisting pointer-move rate limiters are observably
equivalent: over every sequence of integer-millisecond timestamps they
process exactly the same events and end in the same state. -/
theorem rateLimiter_variants_equivalent (s : MouseState) (ts : List ℤ) :
    runGateA s ts = runGateB s ts := by
  induction ts generalizing s with
  | nil => rfl
  | cons t ts ih =>
    simp only [runGateA, runGateB, onMouseMoveGate_pointwise, ih]

/-- mouseMovedTo only ever touches the marker: the gate, the candidate
set, and the in-flight count pass through unchanged. -/
theorem mouseMovedTo_gate_invariant (offScreen : SpherePos → Bool)
    (db : ℚ → ℚ → ℚ → ℚ → ℚ → ℚ) (position : Position) (s : MoveState) :
    ((mouseMovedTo offScreen db position s).1).movementEnabled = s.movementEnabled ∧
    ((mouseMovedTo offScreen db position s).1).nearbyPanos = s.nearbyPanos ∧
    ((mouseMovedTo offScreen db position s).1).inFlight = s.inFlight := by
  unfold mouseMovedTo
  split
  · exact ⟨rfl, rfl, rfl⟩
  · split
    · exact ⟨rfl, rfl, rfl⟩
    · split
      · exact ⟨rfl, rfl, rfl⟩
      · exact ⟨rfl, rfl, rfl⟩

/-- C5 (amended): a processed pointer-move position updates the marker to
the nearest qualifying on-screen candidate, or hides it when the
candidate set exists, input is enabled, and no candidate qualifies; when
input is disabled, or no candidate set exists yet, the handler returns
without touching anything, so a marker that is hidden while input is
disabled stays hidden. -/
theorem mouseMovedTo_behavior (offScreen : SpherePos → Bool)
    (db : ℚ → ℚ → ℚ → ℚ → ℚ → ℚ) (position : Position) (s : MoveState) :
    (s.movementEnabled = false → mouseMovedTo offScreen db position s = (s, .noop)) ∧
    (s.nearbyPanos = none → mouseMovedTo offScreen db position s = (s, .noop)) ∧
    (∀ panos, s.nearbyPanos = some panos → s.movementEnabled = true →
       (getClosestPano offScreen db position panos = none →
          mouseMovedTo offScreen db position s =
            ({ s with marker := hideMarker s.marker }, .hidden)) ∧
       (∀ c, getClosestPano offScreen db position panos = some c →
          mouseMovedTo offScreen db position s =
            ({ s with marker := updateMarkerTo c s.marker }, .updated c))) ∧
    (s.movementEnabled = false → s.marker.visible = false →
       ((mouseMovedTo offScreen db position s).1).marker.visible = false) := by
  refine ⟨?_, ?_, ?_, ?_⟩
  · intro hm
    unfold mouseMovedTo
    split
    · rfl
    · rw [if_pos hm]
  · intro hnp
    unfold mouseMovedTo
    rw [hnp]
  · intro panos hnp hm
    have hme : ¬(s.movementEnabled = false) := by
      rw [hm]
      exact fun hc => nomatch hc
    constructor
    · intro hclosest
      simp only [mouseMovedTo, hnp, if_neg hme, hclosest]
    · intro c hclosest
      simp only [mouseMovedTo, hnp, if_neg hme, hclosest]
  · intro hm hv
    unfold mouseMovedTo
    split
    · exact hv
    · rw [if_pos hm]
      exact hv

/-- A nearby mouse position. -/
def pos0 : Position := ⟨0, 1⟩

/-- A state in which the marker is visible and bound but navigation input
is disabled, with an on-screen candidate available. -/
def visDisabledS : MoveState :=
  ⟨⟨true, some pano1, 0, 0, 32, 32⟩, true, false, some [cand0], some pos0, 0⟩

/-- C5 counterexample: with input disabled, a qualifying on-screen
candidate available, and the marker visible, the handler neither updates
nor hides the marker — it returns with the marker still visible, contrary
to "hides the marker ... when navigation input is disabled". -/
theorem mouseMovedTo_disabled_no_hide :
    mouseMovedTo offNone dbOne pos0 visDisabledS = (visDisabledS, .noop) ∧
    visDisabledS.marker.visible = true ∧
    visDisabledS.movementEnabled = false ∧
    getClosestPano offNone dbOne pos0 [cand0] = some cand0 := by
  refine ⟨?_, rfl, rfl, ?_⟩
  · unfold mouseMovedTo visDisabledS
    rfl
  · unfold getClosestPano offNone dbOne cand0
    norm_num

/-- C5 witness: the amended no-op case at the concrete disabled state. -/
theorem mouseMovedTo_behavior_witness :
    mouseMovedTo offNone dbOne pos0 visDisabledS = (visDisabledS, .noop) :=
  (mouseMovedTo_behavior offNone dbOne pos0 visDisabledS).1 rfl

/-- C4 (amended): an activation through the marker branch clears the
movementEnabled gate before its transition, every activation attempted
while the gate is cleared is ignored without any state change, and the
completion of the marker-branch transition restores the gate. (The touch
branch does not clear the gate, so this protection covers only
marker-branch navigations; see the counterexample.) -/
theorem markerBranch_navigation_gate (offScreen : SpherePos → Bool)
    (db : ℚ → ℚ → ℚ → ℚ → ℚ → ℚ) (data : ClickData) (s : MoveState) (p : Pano)
    (h1 : data.rightclick = false) (h2 : s.movementEnabled = true)
    (h3 : s.marker.visible = true) (h4 : s.marker.data = some p) :
    onClickStart offScreen db data s =
      ({ s with marker := hideMarker s.marker, movementEnabled := false,
                inFlight := s.inFlight + 1 }, .navStarted p true) ∧
    (∀ (oS : SpherePos → Bool) (dB : ℚ → ℚ → ℚ → ℚ → ℚ → ℚ) (d2 : ClickData)
       (s' : MoveState), s'.movementEnabled = false →
       onClickStart oS dB d2 s' = (s', .ignored)) ∧
    (∀ (oS : SpherePos → Bool) (dB : ℚ → ℚ → ℚ → ℚ → ℚ → ℚ) (s' : MoveState),
       (onClickFinish oS dB true s').movementEnabled = true) := by
  have hc1 : ¬(data.rightclick = true ∨ s.movementEnabled = false) := by
    rintro (hr | hm)
    · rw [h1] at hr
      exact nomatch hr
    · rw [h2] at hm
      exact nomatch hm
  have hc2 : ¬(s.marker.visible = false ∨ s.marker.data = none) := by
    rintro (hv | hd)
    · rw [h3] at hv
      exact nomatch hv
    · rw [h4] at hd
      exact nomatch hd
  refine ⟨?_, ?_, ?_⟩
  · unfold onClickStart
    rw [if_neg hc1, if_neg hc2, h4]
  · intro oS dB d2 s' hs'
    unfold onClickStart
    rw [if_pos (Or.inr hs')]
  · intro oS dB s'
    simp only [onClickFinish]
    rw [if_true]
    split
    · exact (mouseMovedTo_gate_invariant oS dB _ _).1
    · rfl

/-- A state right after a touch user opened a panorama: marker hidden,
mouse never moved, one on-screen candidate. -/
def mobileS0 : MoveState := ⟨marker0, false, true, some [cand0], none, 0⟩

/-- C4 counterexample: two touch activations in immediate succession both
start navigations — the second is not ignored, and two navigations are in
flight at once, because the touch branch never clears movementEnabled. -/
theorem mobile_double_navigation :
    (onClickStart offNone dbOne tap0 mobileS0).2 = .navStarted pano1 false ∧
    (onClickStart offNone dbOne tap0 mobileS0).1.inFlight = 1 ∧
    (onClickStart offNone dbOne tap0 (onClickStart offNone dbOne tap0 mobileS0).1).2 =
      .navStarted pano1 false ∧
    (onClickStart offNone dbOne tap0
      (onClickStart offNone dbOne tap0 mobileS0).1).1.inFlight = 2 := by
  have h1 : onClickStart offNone dbOne tap0 mobileS0 =
      ({ mobileS0 with inFlight := 1 }, .navStarted pano1 false) := by
    unfold onClickStart mobileS0 marker0 tap0 getClosestPano offNone dbOne cand0
    norm_num
  have h2 : onClickStart offNone dbOne tap0 ({ mobileS0 with inFlight := 1 }) =
      ({ mobileS0 with inFlight := 2 }, .navStarted pano1 false) := by
    unfold onClickStart mobileS0 marker0 tap0 getClosestPano offNone dbOne cand0
    norm_num
  rw [h1]
  refine ⟨rfl, rfl, ?_, ?_⟩
  · rw [h2]
  · rw [h2]

/-- C4 witness: the marker-branch gate at a concrete state. -/
theorem markerBranch_navigation_gate_witness :
    onClickStart offNone dbOne tap0
        ⟨⟨true, some pano1, 0, 0, 32, 32⟩, true, true, some [cand0], some pos0, 0⟩ =
      ({ marker := hideMarker ⟨true, some pano1, 0, 0, 32, 32⟩,
         mouseHasMoved := true, movementEnabled := false,
         nearbyPanos := some [cand0], lastMousePosition := some pos0,
         inFlight := 1 }, .navStarted pano1 true) :=
  (markerBranch_navigation_gate offNone dbOne tap0
    ⟨⟨true, some pano1, 0, 0, 32, 32⟩, true, true, some [cand0], some pos0, 0⟩
    pano1 rfl rfl rfl rfl).1

/-- The state of a touch user whose candidate set came back empty. -/
def mobileEmptyS : MoveState := ⟨marker0, false, true, some [], none, 0⟩

/-- C1: when the touch branch's nearest-candidate search returns no
candidate, the activation is not a no-op: the source dereferences
`closest.pano` with `closest` null and throws a TypeError. -/
theorem touch_click_null_deref :
    onClickStart offNone dbOne tap0 mobileEmptyS = (mobileEmptyS, .typeError) := by
  unfold onClickStart mobileEmptyS marker0 tap0 getClosestPano
  norm_num

end Lookaround
